import Mathlib

/-!
Verification of the build/serve contract of a Vite + React frontend
microservice.  The embedded code is: the configuration display of the App
component (src/App.tsx), the two-stage Docker build (Dockerfile), and the
static file server whose routing policy is documented in DEPLOYMENT.md.
-/

/-- App.tsx line 5:
const apiUrl = import.meta.env.VITE_API_URL \|\| fallback, where the
fallback literal is http://localhost:3000.  The argument none models an
undefined environment variable; the empty string is the only falsy string
in JavaScript, so the JavaScript or-operator falls back exactly when the
variable is undefined or empty. -/
def apiUrl (viteApiUrl : Option String) : String :=
  match viteApiUrl with
  | none => "http://localhost:3000"
  | some s => if s = "" then "http://localhost:3000" else s

/-- Dockerfile line 9: ARG VITE_API_URL=https://api.prod.example.com. -/
def defaultViteApiUrl : String := "https://api.prod.example.com"

/-- Dockerfile lines 9 and 10: the build argument is the supplied value, or
the declared default when none is supplied; ENV VITE_API_URL=$VITE_API_URL
then makes the resolved value visible to the Vite build. -/
def resolveBuildArg (supplied : Option String) : String :=
  supplied.getD defaultViteApiUrl

/-- The value the built page displays for a given optional build-time
configuration string: the resolved build argument is always present in the
build environment (Dockerfile line 10), and App.tsx line 5 applies its
falsy-value fallback to it. -/
def displayedApiUrl (supplied : Option String) : String :=
  apiUrl (some (resolveBuildArg supplied))

/-- A source tree as the Docker build stage sees it: its files (path and
content pairs), and whether dependency installation (Dockerfile line 17)
and compilation (Dockerfile line 23) succeed on it. -/
structure SourceTree where
  files : List (String × String)
  installOk : Bool
  compileOk : Bool
deriving DecidableEq

/-- The two ways the build stage can fail (Dockerfile lines 17 and 23). -/
inductive BuildError where
  | installFailure
  | compileFailure
deriving DecidableEq

/-- The static asset bundle produced by the build stage: the compiled
files, the entry document served as the SPA fallback, and the
configuration value frozen into the compiled page. -/
structure Bundle where
  assets : List (String × String)
  entryDoc : String
  embeddedApiUrl : String
deriving DecidableEq

/-- Content of the entry document of the built bundle: the index.html file
of the compiled output, empty when the tree lacks one. -/
def builtEntryDoc (src : SourceTree) : String :=
  ((src.files.find? (fun a => a.1 = "index.html")).map (fun a => a.2)).getD ""

/-- Dockerfile lines 15 to 29: dependency installation (line 17) and
compilation (line 23) run in sequence; a failing RUN step aborts the whole
docker build, and only a fully successful build stage publishes a bundle
into the production stage (COPY --from=build, line 28).  The bundle embeds
the configuration value resolved at build time. -/
def dockerBuild (src : SourceTree) (supplied : Option String) :
    Except BuildError Bundle :=
  if !src.installOk then .error .installFailure
  else if !src.compileOk then .error .compileFailure
  else .ok { assets := src.files
             entryDoc := builtEntryDoc src
             embeddedApiUrl := displayedApiUrl supplied }

/-- Exit status of the docker build process: 0 on success, nonzero when a
step failed. -/
def buildExitCode (r : Except BuildError Bundle) : Nat :=
  match r with
  | .ok _ => 0
  | .error _ => 1

/-- An HTTP response: status code and body bytes. -/
structure HttpResponse where
  status : Nat
  body : String
deriving DecidableEq

/-- The fixed liveness path (Dockerfile line 39, DEPLOYMENT.md). -/
def healthPath : String := "/health"

/-- The serve-stage state: the bundle the server exposes. -/
structure ServerState where
  bundle : Bundle
deriving DecidableEq

/-- Look up a requested path among the bundle files. -/
def lookupAsset (b : Bundle) (path : String) : Option String :=
  (b.assets.find? (fun a => a.1 = path)).map (fun a => a.2)

/-- Modelled from the spec: the nginx configuration file (nginx.conf,
copied at Dockerfile line 32) is not in the repository; DEPLOYMENT.md
documents its routing policy (try_files with fallback to index.html) and
the liveness endpoint returning the constant body healthy.  A request to
the liveness path gets the constant 200 response; any other path is served
the matching bundle file with status 200, or the entry document with
status 200 when no file matches.  Handling a request never changes the
server state. -/
def handleRequest (st : ServerState) (path : String) :
    HttpResponse × ServerState :=
  if path = healthPath then ({ status := 200, body := "healthy" }, st)
  else
    match lookupAsset st.bundle path with
    | some bytes => ({ status := 200, body := bytes }, st)
    | none => ({ status := 200, body := st.bundle.entryDoc }, st)

/-- The server state after handling a sequence of requests, in order. -/
def runRequests (st : ServerState) : List String → ServerState
  | [] => st
  | p :: ps => runRequests (handleRequest st p).2 ps

/-- Helper: handling one request leaves the server state unchanged. -/
theorem handleRequest_state_eq (st : ServerState) (p : String) :
    (handleRequest st p).2 = st := by
  unfold handleRequest
  split
  · rfl
  · split <;> rfl

/-- Helper: handling any sequence of requests leaves the state unchanged. -/
theorem runRequests_eq (st : ServerState) (ps : List String) :
    runRequests st ps = st := by
  induction ps generalizing st with
  | nil => rfl
  | cons p ps ih =>
      rw [runRequests, handleRequest_state_eq]
      exact ih st

/-- Helper: a successful build embeds exactly the displayed value of the
supplied configuration. -/
theorem dockerBuild_ok_embedded (src : SourceTree) (cfg : Option String)
    (b : Bundle) (h : dockerBuild src cfg = .ok b) :
    b.embeddedApiUrl = displayedApiUrl cfg := by
  unfold dockerBuild at h
  split at h
  · simp at h
  · split at h
    · simp at h
    · cases h
      rfl

/-- C1 (counterexample): supplying the empty string as the build-time
configuration value does not display the empty string; the falsy-value
fallback in App.tsx line 5 replaces it with http://localhost:3000. -/
theorem c1_empty_string_not_identical :
    displayedApiUrl (some "") ≠ "" ∧
    displayedApiUrl (some "") = "http://localhost:3000" := by
  constructor <;> decide

/-- C1 (amended): for every nonempty string supplied as the build-time
configuration value, the value displayed by the App component is
byte-identical to the supplied string. -/
theorem c1_displayed_eq_supplied (s : String) (h : s ≠ "") :
    displayedApiUrl (some s) = s := by
  simp [displayedApiUrl, resolveBuildArg, apiUrl, h]

/-- C1 (witness): at the concrete nonempty input https://api.dev.example.com
the displayed value is that same string. -/
theorem c1_displayed_eq_supplied_witness :
    "https://api.dev.example.com" ≠ "" ∧
    displayedApiUrl (some "https://api.dev.example.com") =
      "https://api.dev.example.com" :=
  ⟨by decide, c1_displayed_eq_supplied "https://api.dev.example.com" (by decide)⟩

/-- C10: when the build-time configuration value is the empty string or
undefined, the App component displays the hard-coded fallback
http://localhost:3000 instead of the supplied value. -/
theorem c10_falsy_fallback :
    apiUrl (some "") = "http://localhost:3000" ∧
    apiUrl none = "http://localhost:3000" ∧
    displayedApiUrl (some "") = "http://localhost:3000" := by
  refine ⟨by decide, rfl, by decide⟩

/-- C2 (counterexample): the liveness path matches no file in an empty
bundle, yet the response body is the constant healthy, not the entry
document, because the liveness endpoint shadows the fallback policy. -/
theorem c2_health_not_entry_doc :
    lookupAsset ⟨[], "<html>app</html>", "u"⟩ "/health" = none ∧
    (handleRequest ⟨⟨[], "<html>app</html>", "u"⟩⟩ "/health").1.body ≠
      "<html>app</html>" := by
  constructor <;> decide

/-- C2 (amended): every requested path other than the liveness path that
matches no file in the bundle is answered with the entry document and
status 200, never an error response. -/
theorem c2_spa_fallback (b : Bundle) (path : String)
    (hp : path ≠ healthPath) (hf : lookupAsset b path = none) :
    (handleRequest ⟨b⟩ path).1 = ⟨200, b.entryDoc⟩ := by
  simp [handleRequest, hp, hf]

/-- C2 (witness): a concrete missing path on a concrete bundle receives
the entry document with status 200. -/
theorem c2_spa_fallback_witness :
    lookupAsset ⟨[("/assets/app.js", "js-bytes")], "<html>app</html>", "u"⟩
        "/missing/route" = none ∧
    (handleRequest ⟨⟨[("/assets/app.js", "js-bytes")], "<html>app</html>", "u"⟩⟩
        "/missing/route").1 = ⟨200, "<html>app</html>"⟩ :=
  ⟨by decide, c2_spa_fallback _ "/missing/route" (by decide) (by decide)⟩

/-- C3 (counterexample): a bundle holding a file at the liveness path does
not get that file served: the liveness endpoint answers with the constant
body instead of the file bytes. -/
theorem c3_health_shadows_file :
    lookupAsset ⟨[("/health", "file-bytes")], "<html>app</html>", "u"⟩
      "/health" = some "file-bytes" ∧
    (handleRequest ⟨⟨[("/health", "file-bytes")], "<html>app</html>", "u"⟩⟩
      "/health").1.body ≠ "file-bytes" := by
  constructor <;> decide

/-- C3 (amended): every requested path other than the liveness path that
matches an existing file in the bundle is answered with exactly that file
and status 200. -/
theorem c3_exact_file (b : Bundle) (path bytes : String)
    (hp : path ≠ healthPath) (hf : lookupAsset b path = some bytes) :
    (handleRequest ⟨b⟩ path).1 = ⟨200, bytes⟩ := by
  simp [handleRequest, hp, hf]

/-- C3 (witness): a concrete existing asset is served unchanged. -/
theorem c3_exact_file_witness :
    lookupAsset ⟨[("/assets/app.js", "js-bytes")], "<html>app</html>", "u"⟩
        "/assets/app.js" = some "js-bytes" ∧
    (handleRequest ⟨⟨[("/assets/app.js", "js-bytes")], "<html>app</html>", "u"⟩⟩
        "/assets/app.js").1 = ⟨200, "js-bytes"⟩ :=
  ⟨by decide, c3_exact_file _ "/assets/app.js" "js-bytes" (by decide) (by decide)⟩

/-- C4: in every server state reachable by handling any sequence of
requests from any initial bundle, a request to the liveness path returns
the constant 200 response with body healthy; it never varies and is never
an error. -/
theorem c4_health_constant (b : Bundle) (ps : List String) :
    (handleRequest (runRequests ⟨b⟩ ps) healthPath).1 = ⟨200, "healthy"⟩ := by
  rw [runRequests_eq]
  simp [handleRequest]

/-- C5: when no configuration string is supplied, a successful build embeds
the single declared default, the placeholder production endpoint
https://api.prod.example.com, and that is the value the built application
displays. -/
theorem c5_default_value (src : SourceTree) (b : Bundle)
    (h : dockerBuild src none = .ok b) :
    b.embeddedApiUrl = defaultViteApiUrl ∧
    b.embeddedApiUrl = "https://api.prod.example.com" := by
  have he := dockerBuild_ok_embedded src none b h
  constructor
  · rw [he]; decide
  · rw [he]; decide

/-- C5 (witness): building a concrete healthy tree with no supplied
configuration embeds the declared default. -/
theorem c5_default_value_witness :
    dockerBuild ⟨[], true, true⟩ none =
      .ok ⟨[], "", "https://api.prod.example.com"⟩ ∧
    Bundle.embeddedApiUrl ⟨[], "", "https://api.prod.example.com"⟩ =
      defaultViteApiUrl :=
  ⟨rfl, (c5_default_value ⟨[], true, true⟩ _ rfl).1⟩

/-- C6: two runs of the build on the same source tree with the same
configuration string produce bundles whose displayed configuration value
is identical. -/
theorem c6_reproducible (src : SourceTree) (cfg : Option String)
    (b₁ b₂ : Bundle)
    (h₁ : dockerBuild src cfg = .ok b₁) (h₂ : dockerBuild src cfg = .ok b₂) :
    b₁.embeddedApiUrl = b₂.embeddedApiUrl := by
  rw [h₁] at h₂
  cases h₂
  rfl

/-- C6 (witness): two concrete runs on the same inputs embed the same
value. -/
theorem c6_reproducible_witness :
    dockerBuild ⟨[], true, true⟩ (some "https://a.example") =
      .ok ⟨[], "", "https://a.example"⟩ ∧
    Bundle.embeddedApiUrl ⟨[], "", "https://a.example"⟩ =
      Bundle.embeddedApiUrl ⟨[], "", "https://a.example"⟩ :=
  ⟨rfl,
   c6_reproducible ⟨[], true, true⟩ (some "https://a.example") _ _
     rfl rfl⟩

/-- C7: when dependency installation or compilation fails, the build exits
nonzero and publishes no bundle, only an error. -/
theorem c7_failed_build_publishes_nothing (src : SourceTree)
    (cfg : Option String)
    (h : src.installOk = false ∨ src.compileOk = false) :
    buildExitCode (dockerBuild src cfg) ≠ 0 ∧
    ∃ e, dockerBuild src cfg = Except.error e := by
  cases hi : src.installOk <;> cases hc : src.compileOk <;>
    simp [dockerBuild, buildExitCode, hi, hc] at h ⊢

/-- C7 (witness): a concrete tree whose installation fails builds to an
error with nonzero exit. -/
theorem c7_failed_build_witness :
    SourceTree.installOk ⟨[], false, true⟩ = false ∧
    buildExitCode (dockerBuild ⟨[], false, true⟩ none) ≠ 0 :=
  ⟨rfl,
   (c7_failed_build_publishes_nothing ⟨[], false, true⟩ none (Or.inl rfl)).1⟩

/-- C8: the configuration value is resolved once at build time and
embedded into the bundle, and no sequence of runtime requests changes the
server state, so the embedded value stays the build-time value across the
whole lifetime of the container. -/
theorem c8_immutable_config (src : SourceTree) (cfg : Option String)
    (b : Bundle) (h : dockerBuild src cfg = .ok b) (ps : List String) :
    (runRequests ⟨b⟩ ps).bundle.embeddedApiUrl = displayedApiUrl cfg ∧
    runRequests ⟨b⟩ ps = ⟨b⟩ := by
  refine ⟨?_, runRequests_eq _ _⟩
  rw [runRequests_eq]
  exact dockerBuild_ok_embedded src cfg b h

/-- C8 (witness): on a concrete build and a concrete request sequence the
embedded value is still the build-time value afterwards. -/
theorem c8_immutable_config_witness :
    dockerBuild ⟨[], true, true⟩ (some "https://a.example") =
      .ok ⟨[], "", "https://a.example"⟩ ∧
    (runRequests ⟨⟨[], "", "https://a.example"⟩⟩
        ["/health", "/x", "/health"]).bundle.embeddedApiUrl =
      displayedApiUrl (some "https://a.example") :=
  ⟨rfl,
   (c8_immutable_config ⟨[], true, true⟩ (some "https://a.example") _
      rfl ["/health", "/x", "/health"]).1⟩

/-- C9: request handling is stateless and idempotent: the response to a
request is the same no matter what other requests were handled before it,
and handling a request leaves the server state, hence the bundle files,
unchanged. -/
theorem c9_stateless_idempotent (st : ServerState) (ps : List String)
    (p : String) :
    (handleRequest (runRequests st ps) p).1 = (handleRequest st p).1 ∧
    (handleRequest st p).2 = st := by
  rw [runRequests_eq]
  exact ⟨rfl, handleRequest_state_eq st p⟩
